import Mathlib

/-!
Shallow embedding of the nativefier app-build orchestration pipeline
(`buildNativefierApp` and its helpers) for verification of the
natural-language specification.

Filesystem and subprocess effects are modelled as an explicit trace of
events; collaborators that live outside the embedded source (options
resolver, upgrade detector, packaging engine, host probes) are modelled
as parameters of an environment record, following the specification's
collaborator contracts.
-/

namespace Nativefier

/-- A filesystem / subprocess / logging effect performed by the pipeline.
`copy` carries the overwrite and preserveTimestamps flags handed to the
copy routine. -/
inductive Event where
  | stage (dir : String)
  | copy (src dest : String) (overwrite preserveTimestamps : Bool)
  | remove (p : String)
  | writeFile (p content : String)
  | chmod (p : String) (mode : Nat)
  | ensureDir (p : String)
  | spawn (cmd : String) (args : List String)
  | warn (msg : String)
  | info (msg : String)
  deriving Repr, DecidableEq

/-- The upgrade field of a raw request is, in the source, either a string
(a path) or a boolean flag. -/
inductive UpgradeField where
  | str (s : String)
  | flag (b : Bool)
  deriving Repr, DecidableEq

/-- The host operating system, as probed by the helpers. -/
inductive Host where
  | windows
  | macos
  | linux
  deriving Repr, DecidableEq

/-- `isWindows()` helper: true exactly on a Windows host. -/
def hostIsWin (h : Host) : Bool := h = Host.windows

/-- Truthiness of an optional string, as JavaScript sees it: present and
non-empty. -/
def truthyOpt (o : Option String) : Bool := o.getD "" != ""

/-- `RawOptions`: the user-supplied build request. Fields follow the
source and the specification's RawRequest data model. -/
structure RawOptions where
  targetUrl : String
  out : Option String
  overwrite : Bool
  upgrade : Option UpgradeField
  upgradeFrom : Option String
  quiet : Bool
  verbose : Bool
  name : Option String
  icon : Option String
  appCopyright : Option String
  appVersion : Option String
  buildVersion : Option String
  versionString : Option String
  win32metadata : Bool
  platform : String
  tray : String
  deriving Repr, DecidableEq

/-- The packaging-engine slice of the resolved configuration
(`options.packager` in the source). -/
structure PackagerOptions where
  platform : String
  icon : Option String
  name : Option String
  targetUrl : String
  out : String
  overwrite : Bool
  upgrade : Bool
  upgradeFrom : Option String
  appCopyright : Option String
  appVersion : Option String
  buildVersion : Option String
  versionString : Option String
  win32metadata : Bool
  dir : String
  quiet : Bool
  deriving Repr, DecidableEq

/-- The feature slice of the resolved configuration
(`options.nativefier` in the source). -/
structure NativefierOptions where
  tray : String
  deriving Repr, DecidableEq

/-- `AppOptions`. Modelled from the spec: the ResolvedConfig data model is
`\x7bengineConfig, featureConfig\x7d` (the options model file is not part of the
embedded sources); its only top-level fields are the packager slice and the
nativefier slice. -/
structure AppOptions where
  packager : PackagerOptions
  nativefier : NativefierOptions
  deriving Repr, DecidableEq

/-- `PriorInstall`. Modelled from the spec: a previously built app
discovered on disk, `\x7brootPath, savedConfig\x7d`; the saved configuration
supplies defaults for fields absent in a new request. -/
structure PriorInstall where
  appRoot : String
  savedTargetUrl : String
  savedName : Option String
  savedIcon : Option String
  savedPlatform : String
  deriving Repr, DecidableEq

/-- The packaging engine returns either a single path or an array of
paths. -/
inductive StrOrArr where
  | str (s : String)
  | arr (l : List String)
  deriving Repr, DecidableEq

/-- Failure switches and host facts consumed only by the Linux
finalization steps. Each `...Ok` flag decides whether the corresponding
filesystem or subprocess operation succeeds. -/
structure LinuxEnv where
  homeDir : String
  isRoot : Bool
  launcherWriteOk : Bool
  sudoRmOk : Bool
  sudoCpOk : Bool
  installFsOk : Bool
  installWriteOk : Bool

/-- Environment for the pipeline up to and including upgrade
finalization: host facts, collaborator results and failure switches. -/
structure CoreEnv where
  cwd : String
  host : Host
  isWindowsAdmin : Bool
  hasWine : Bool
  findUpgradeApp : String → Option PriorInstall
  tmpAppDir : String
  tmpUpgradeDir : String
  packagerResult : StrOrArr
  readdir : String → List String
  removeFrameworksFails : Bool

/-- Full environment of a build. -/
structure Env where
  core : CoreEnv
  linux : LinuxEnv

/-! ## Path helpers (Node `path` module, POSIX flavour, for the shapes
of path the pipeline produces). They are written by structural recursion
over character lists so that concrete instances evaluate inside the
kernel. -/

/-- Split a character list at every occurrence of the character `c`. -/
def splitOnChar (c : Char) : List Char → List (List Char)
  | [] => [[]]
  | x :: xs =>
    match splitOnChar c xs with
    | [] => [[x]]
    | y :: ys => if x = c then [] :: y :: ys else (x :: y) :: ys

/-- Join character-list segments with a slash. -/
def joinSlash : List (List Char) → List Char
  | [] => []
  | [x] => x
  | x :: y :: ys => x ++ '/' :: joinSlash (y :: ys)

/-- Is the first list a leading segment of the second? -/
def leadsWith : List Char → List Char → Bool
  | [], _ => true
  | _ :: _, [] => false
  | a :: as, b :: bs => a == b && leadsWith as bs

/-- Does the first list occur as a contiguous segment of the second? -/
def subOccurs (pat : List Char) (l : List Char) : Bool :=
  match l with
  | [] => pat.isEmpty
  | _ :: rest => leadsWith pat l || subOccurs pat rest

/-- `path.join` of two segments. -/
def pathJoin (a b : String) : String :=
  if a = "" then b
  else if a.data.getLast? = some '/' then a ++ b
  else a ++ "/" ++ b

/-- `path.basename`: the final path segment. -/
def basenameStr (p : String) : String :=
  String.mk ((splitOnChar '/' p.data).getLastD p.data)

/-- `path.dirname`: everything before the final separator. -/
def dirname (p : String) : String :=
  let parts := splitOnChar '/' p.data
  if parts.length ≤ 1 then "."
  else if parts.dropLast = [[]] then "/"
  else String.mk (joinSlash parts.dropLast)

/-- Index of the last dot in a character list, if any. -/
def lastDotIdx (cs : List Char) : Option Nat :=
  match cs.reverse.findIdx? (fun c => c == '.') with
  | none => none
  | some j => some (cs.length - 1 - j)

/-- `path.extname`: the extension of the final path segment, from its
last dot (empty when there is no dot, or only a leading one). -/
def extname (p : String) : String :=
  let cs := (basenameStr p).data
  match lastDotIdx cs with
  | none => ""
  | some 0 => ""
  | some k => String.mk (cs.drop k)

/-- `appName.replace(/\s+/g, '')`: remove every whitespace character. -/
def stripWs (s : String) : String :=
  String.mk (s.data.filter (fun c =>
    !(c == ' ' || c == '\t' || c == '\n' || c == '\r' || c == '\x0b' || c == '\x0c')))

/-- Does `pat` occur as a substring of `s`? -/
def occursIn (pat s : String) : Bool :=
  subOccurs pat.data s.data

/-! ## Embedded source functions -/

/-- The fixed list of option keys that require Windows (or Wine) to be
honoured for a Windows build. -/
def OPTIONS_REQUIRING_WINDOWS_FOR_WINDOWS_BUILD : List String :=
  ["icon", "appCopyright", "appVersion", "buildVersion", "versionString", "win32metadata"]

/-- `copyIconsIfNecessary`: requested icon copies per target platform.
No-op without an icon; on darwin/mas a tray icon from the icon's
directory is copied to `appPath/icon.png` unless tray mode is the string
false; otherwise the icon file itself is copied to `appPath/icon.<ext>`.
The copy flags record fs-extra defaults (overwrite, no timestamp
preservation). -/
def copyIconsIfNecessary (options : AppOptions) (appPath : String) : List Event :=
  if truthyOpt options.packager.icon then
    let icon := options.packager.icon.getD ""
    if options.packager.platform = "darwin" ∨ options.packager.platform = "mas" then
      if options.nativefier.tray != "false" then
        [Event.copy (dirname icon ++ "/" ++ "tray-icon.png") (pathJoin appPath "icon.png") true false]
      else []
    else
      [Event.copy icon (pathJoin appPath ("icon" ++ extname icon)) true false]
  else []

/-- Warning logged when the packaging engine returns several paths. -/
def multiPathWarnMsg : String :=
  "Warning: This should not be happening, packaged app path contains more than one element:"

/-- `getAppPath`: unwrap the packaging engine result; `none` when the
array is empty (the output directory already exists and overwrite was
not set), the first element plus a warning when it has more than one. -/
def getAppPath : StrOrArr → Option String × List Event
  | StrOrArr.str s => (some s, [])
  | StrOrArr.arr [] => (none, [])
  | StrOrArr.arr (x :: rest) =>
    (some x, if rest = [] then [] else [Event.warn multiPathWarnMsg])

/-- Error thrown by the orchestrator when no app path was produced. -/
def appPathUndeterminedMsg : String := "App Path could not be determined."

/-- Path-result normalization as the orchestrator performs it:
`getAppPath` followed by the throw on an undetermined path. -/
def normalizeAppPath (a : StrOrArr) : Except String (String × List Event) :=
  match getAppPath a with
  | (none, _) => Except.error appPathUndeterminedMsg
  | (some p, evs) => Except.ok (p, evs)

/-- `isUpgrade`: when the upgrade field is a non-empty string, record it
as `upgradeFrom`, flip the upgrade field to the boolean true and report
an upgrade; otherwise leave the request unchanged. -/
def isUpgradeFn (r : RawOptions) : RawOptions × Bool :=
  match r.upgrade with
  | some (UpgradeField.str s) =>
    if s ≠ "" then
      ({ r with upgradeFrom := some s, upgrade := some (UpgradeField.flag true) }, true)
    else (r, false)
  | _ => (r, false)

/-- The boolean value of the upgrade field as the resolved configuration
sees it. -/
def upgradeFlag : Option UpgradeField → Bool
  | some (UpgradeField.flag b) => b
  | some (UpgradeField.str s) => s != ""
  | none => false

/-- `Object.entries(options)` at the top level of `AppOptions`: per the
spec data model the only top-level fields are the packager slice and the
nativefier slice, both always-truthy objects. -/
def topLevelEntries (_options : AppOptions) : List (String × Bool) :=
  [("packager", true), ("nativefier", true)]

/-- Assigning `undefined` to a top-level key of `AppOptions`: the record
has no top-level field named by any key of
`OPTIONS_REQUIRING_WINDOWS_FOR_WINDOWS_BUILD`, so no field the program
later reads changes. -/
def unsetTopLevelKey (options : AppOptions) (_key : String) : AppOptions := options

/-- Warning logged when Windows-only options are dropped. -/
def wineWarnMsg (optionsPresent : List String) : String :=
  "*Not* setting [" ++ String.intercalate ", " optionsPresent ++ "], as could not find Wine."

/-- `trimUnprocessableOptions`: on a Windows-target build from a
non-Windows host without Wine, drop the unprocessable option keys found
among the top-level entries and warn once, naming them. -/
def trimUnprocessableOptions (env : CoreEnv) (options : AppOptions) : AppOptions × List Event :=
  if options.packager.platform = "win32" ∧ ¬ hostIsWin env.host ∧ ¬ env.hasWine then
    let optionsPresent :=
      ((topLevelEntries options).filter
        (fun kv => decide (kv.1 ∈ OPTIONS_REQUIRING_WINDOWS_FOR_WINDOWS_BUILD) && kv.2)).map
        Prod.fst
    if optionsPresent.isEmpty then (options, [])
    else (optionsPresent.foldl unsetTopLevelKey options, [Event.warn (wineWarnMsg optionsPresent)])
  else (options, [])

/-- Modelled from the spec: `UpgradeDetector.mergeDefaults` (the upgrade
helper module is not part of the embedded sources) merges the prior
install's saved configuration into the raw request as defaults —
explicit new fields win; the saved config supplies defaults for fields
absent in the new request. -/
def useOldAppOptions (r : RawOptions) (oldApp : PriorInstall) : RawOptions :=
  { r with
    targetUrl := if r.targetUrl = "" then oldApp.savedTargetUrl else r.targetUrl
    name := if r.name.isNone then oldApp.savedName else r.name
    icon := if r.icon.isNone then oldApp.savedIcon else r.icon
    platform := if r.platform = "" then oldApp.savedPlatform else r.platform }

/-- Modelled from the spec: `OptionsResolver.resolve` (the options
module is not part of the embedded sources) validates the raw request
into a ResolvedConfig `\x7bengineConfig, featureConfig\x7d`; the fields the
orchestrator later reads pass through from the request. -/
def getOptions (r : RawOptions) : AppOptions :=
  { packager :=
      { platform := r.platform
        icon := r.icon
        name := r.name
        targetUrl := r.targetUrl
        out := r.out.getD ""
        overwrite := r.overwrite
        upgrade := upgradeFlag r.upgrade
        upgradeFrom := r.upgradeFrom
        appCopyright := r.appCopyright
        appVersion := r.appVersion
        buildVersion := r.buildVersion
        versionString := r.versionString
        win32metadata := r.win32metadata
        dir := ""
        quiet := false }
    nativefier := { tray := r.tray } }

/-- Warning logged when the pre-delete of the old frameworks directory
fails. -/
def preDeleteWarnMsg : String :=
  "Encountered an error when attempting to pre-delete old frameworks:"

/-- The overwrite-upgrade finalization block of the orchestrator: when
upgrade, a truthy upgrade source and overwrite are all present, relocate
the fresh build onto the final destination. On darwin, first best-effort
delete the destination bundle's nested Frameworks directory (warn and
continue on failure), then copy the `.app` bundle honouring the
overwrite flag with timestamps preserved; otherwise copy the whole build
directory the same way. In both cases delete the temporary build output
and make the destination the result path. -/
def upgradeFinalize (removeFrameworksFails : Bool) (pk : PackagerOptions)
    (finalOutDirectory appPath : String) : String × List Event :=
  if pk.upgrade ∧ truthyOpt pk.upgradeFrom = true ∧ pk.overwrite then
    if pk.platform = "darwin" then
      let appBundle := pk.name.getD "" ++ ".app"
      let frameworksPath :=
        pathJoin (pathJoin (pathJoin finalOutDirectory appBundle) "Contents") "Frameworks"
      let preEvs :=
        if removeFrameworksFails then [Event.warn preDeleteWarnMsg]
        else [Event.remove frameworksPath]
      (finalOutDirectory,
        preEvs ++
          [Event.copy (pathJoin appPath appBundle) (pathJoin finalOutDirectory appBundle)
              pk.overwrite true,
            Event.remove appPath])
    else
      (finalOutDirectory,
        [Event.copy appPath finalOutDirectory pk.overwrite true, Event.remove appPath])
  else (appPath, [])

/-! ## Linux finalization -/

/-- The `.desktop` descriptor written next to the built app, inside the
build directory. -/
def desktopFileContent (appPath executableName appName targetUrl : String) : String :=
  let iconPath := pathJoin (pathJoin (pathJoin appPath "resources") "app") "icon.png"
  let cleanName := stripWs appName
  "[Desktop Entry]\nVersion=1.0\nType=Application\nName=" ++ appName ++
    "\nComment=App for " ++ targetUrl ++
    "\nExec=" ++ pathJoin appPath executableName ++ " %U" ++
    "\nIcon=" ++ iconPath ++
    "\nTerminal=false\nCategories=Network;WebBrowser;\nStartupWMClass=" ++ cleanName ++
    "\nStartupNotify=true\nActions=\nKeywords=messenger;chat;\nX-GNOME-UsesNotifications=true\n"

/-- Where `createLinuxDesktopLauncher` writes the descriptor. -/
def desktopFilePath (appPath appName : String) : String :=
  pathJoin appPath (appName ++ ".desktop")

/-- Error message for a failed launcher write, as surfaced by the model
failure switch. -/
def launcherIoErrMsg : String := "EACCES: permission denied"

/-- Body of `createLinuxDesktopLauncher` before its catch: events
performed so far, and the error it raised if any. -/
def createLinuxDesktopLauncherCore (readdir : String → List String) (lx : LinuxEnv)
    (appPath appName targetUrl : String) : List Event × Option String :=
  let executableName := basenameStr (((readdir appPath).find? (fun f => f = appName)).getD appName)
  let content := desktopFileContent appPath executableName appName targetUrl
  let p := desktopFilePath appPath appName
  if lx.launcherWriteOk then
    ([Event.writeFile p content, Event.chmod p 0o755,
      Event.info ("Created desktop launcher at " ++ p)], none)
  else ([], some launcherIoErrMsg)

/-- `createLinuxDesktopLauncher`: the body wrapped in a catch-all that
logs a warning and continues. -/
def createLinuxDesktopLauncher (readdir : String → List String) (lx : LinuxEnv)
    (appPath appName targetUrl : String) : List Event :=
  match createLinuxDesktopLauncherCore readdir lx appPath appName targetUrl with
  | (evs, none) => evs
  | (evs, some e) => evs ++ [Event.warn ("Failed to create desktop launcher: " ++ e)]

/-- The rewritten `.desktop` descriptor pointing at the `/opt` install. -/
def installedDesktopContent (appName : String) : String :=
  let optPath := pathJoin "/opt" appName
  let iconPath := pathJoin (pathJoin (pathJoin optPath "resources") "app") "icon.png"
  let cleanName := stripWs appName
  "[Desktop Entry]\nVersion=1.0\nType=Application\nName=" ++ appName ++
    "\nComment=App for " ++ appName ++
    "\nExec=" ++ pathJoin optPath appName ++ " %U" ++
    "\nIcon=" ++ iconPath ++
    "\nTerminal=false\nCategories=Network;WebBrowser;\nStartupWMClass=" ++ cleanName ++
    "\nStartupNotify=true\nActions=\nKeywords=messenger;chat;\nX-GNOME-UsesNotifications=true\n"

/-- Manual-recovery instructions logged when the `/opt` install fails. -/
def manualRecoveryMsg : String :=
  "You can manually copy the app to /opt and the .desktop file to ~/.local/share/applications/"

/-- Error messages surfaced by the model failure switches of the
install step. -/
def installFsErrMsg : String := "EACCES: failed to replace /opt install"

/-- Error message for a failed desktop-entry write during install. -/
def installWriteErrMsg : String := "EACCES: failed to write desktop entry"

/-- Body of `installLinuxApp` before its catch: events performed so far,
and the error it raised if any. A failing elevated removal only warns; a
failing elevated copy throws; when already root the removal and copy are
performed directly with timestamps preserved. -/
def installLinuxAppCore (lx : LinuxEnv) (appPath appName : String) :
    List Event × Option String :=
  let optPath := pathJoin "/opt" appName
  let desktopDir := pathJoin (pathJoin (pathJoin lx.homeDir ".local") "share") "applications"
  let desktopFileDest := pathJoin desktopDir (appName ++ ".desktop")
  let step1 : List Event × Option String :=
    if ¬ lx.isRoot then
      let rmEvs :=
        [Event.spawn "sudo" ["rm", "-rf", optPath]] ++
          (if lx.sudoRmOk then []
           else [Event.warn ("Failed to remove old installation at " ++ optPath)])
      if lx.sudoCpOk then
        (rmEvs ++
          [Event.spawn "sudo" ["cp", "-r", appPath, optPath],
            Event.spawn "sudo" ["chown", "-R", "uid:gid", optPath]], none)
      else (rmEvs, some ("Failed to copy app to " ++ optPath))
    else
      if lx.installFsOk then
        ([Event.remove optPath, Event.copy appPath optPath true true], none)
      else ([], some installFsErrMsg)
  match step1 with
  | (evs, some e) => (evs, some e)
  | (evs, none) =>
    let evs2 := evs ++ [Event.ensureDir desktopDir]
    if lx.installWriteOk then
      (evs2 ++
        [Event.writeFile desktopFileDest (installedDesktopContent appName),
          Event.chmod desktopFileDest 0o755,
          Event.info ("Installed " ++ appName ++ " to " ++ optPath),
          Event.info ("Desktop launcher installed to " ++ desktopFileDest)], none)
    else (evs2, some installWriteErrMsg)

/-- `installLinuxApp`: the body wrapped in a catch-all that logs a
warning plus manual-recovery instructions and continues. -/
def installLinuxApp (lx : LinuxEnv) (appPath appName : String) : List Event :=
  match installLinuxAppCore lx appPath appName with
  | (evs, none) => evs
  | (evs, some e) =>
    evs ++ [Event.warn ("Failed to install app to /opt: " ++ e), Event.info manualRecoveryMsg]

/-! ## Orchestrator -/

/-- Error thrown when no prior app is found at the upgrade source. -/
def upgradeNotFoundMsg (p : String) : String :=
  "Could not find an old Nativfier app in \"" ++ p ++ "\""

/-- Error thrown by the darwin-target-on-Windows-host privilege guard. -/
def darwinPrivilegeMsg : String :=
  "Building an app with a target platform of Mac on a Windows machine requires admin priveleges to perform. Please rerun this command in an admin command prompt."

/-- Stage 2 of the orchestrator: default the output directory to
`<cwd>/output-apps` when the field is falsy. -/
def defaultOut (env : CoreEnv) (r0 : RawOptions) : RawOptions :=
  if truthyOpt r0.out then r0
  else { r0 with out := some (pathJoin env.cwd "output-apps") }

/-- Stage 3 of the orchestrator: upgrade detection — normalize the
upgrade field, locate the prior install (failing when none is found),
merge its saved configuration, and, when the output field is the
undefined value and overwrite is requested, redirect the final
destination to the prior root while working in a fresh temporary
directory. Returns the request to resolve and the final output
directory. -/
def upgradeStep (env : CoreEnv) (r1 : RawOptions) : Except String (RawOptions × String) :=
  if (isUpgradeFn r1).2 then
    match env.findUpgradeApp ((isUpgradeFn r1).1.upgradeFrom.getD "") with
    | none => Except.error (upgradeNotFoundMsg ((isUpgradeFn r1).1.upgradeFrom.getD ""))
    | some oldApp =>
      let r3 := useOldAppOptions (isUpgradeFn r1).1 oldApp
      if r3.out = none ∧ r3.overwrite then
        Except.ok ({ r3 with out := some env.tmpUpgradeDir }, oldApp.appRoot)
      else Except.ok (r3, r1.out.getD "")
  else Except.ok ((isUpgradeFn r1).1, r1.out.getD "")

/-- Stages 6–12 of the orchestrator after the privilege guard passes:
stage the app, convert and copy icons, set engine quietness, trim
unprocessable options, invoke the packaging engine and normalize its
result, and run the overwrite-upgrade finalization. -/
def packageStageRest (env : CoreEnv) (r4 : RawOptions) (finalOutDirectory : String) :
    Except String (AppOptions × String) × List Event :=
  let options0 := getOptions r4
  let tmpPath := env.tmpAppDir
  let options1 := { options0 with packager := { options0.packager with dir := tmpPath } }
  let evs1 := Event.stage tmpPath :: copyIconsIfNecessary options1 tmpPath
  let options2 :=
    { options1 with packager := { options1.packager with quiet := !r4.verbose } }
  let trimmed := trimUnprocessableOptions env options2
  let evs2 := evs1 ++ trimmed.2
  match normalizeAppPath env.packagerResult with
  | Except.error e => (Except.error e, evs2)
  | Except.ok (appPath0, evsN) =>
    let fin := upgradeFinalize env.removeFrameworksFails trimmed.1.packager
      finalOutDirectory appPath0
    (Except.ok (trimmed.1, fin.1), evs2 ++ evsN ++ fin.2)

/-- Stages 4–12 of the orchestrator: resolve the options, run the
darwin-target-on-Windows-host privilege guard, then the remaining
packaging stages. -/
def packageStage (env : CoreEnv) (r4 : RawOptions) (finalOutDirectory : String) :
    Except String (AppOptions × String) × List Event :=
  if (getOptions r4).packager.platform = "darwin" ∧ hostIsWin env.host = true ∧
      ¬ env.isWindowsAdmin then
    (Except.error darwinPrivilegeMsg, [])
  else packageStageRest env r4 finalOutDirectory

/-- The pipeline from option processing up to and including upgrade
finalization (everything before the Linux finalization steps): the
resolved configuration and the final app path, or the error aborting the
build, together with the trace of performed effects. -/
def buildPrePath (env : CoreEnv) (r0 : RawOptions) :
    Except String (AppOptions × String) × List Event :=
  match upgradeStep env (defaultOut env r0) with
  | Except.error e => (Except.error e, [])
  | Except.ok (r4, finalOutDirectory) => packageStage env r4 finalOutDirectory

/-- `buildNativefierApp`: the full orchestrator — the pre-path pipeline
followed by the two Linux finalization steps when the target platform is
linux and both the resolved app name and target URL are truthy. Returns
the final build path (or the aborting error) and the effect trace. -/
def buildNativefierApp (env : Env) (raw : RawOptions) : Except String String × List Event :=
  match buildPrePath env.core raw with
  | (Except.error e, evs) => (Except.error e, evs)
  | (Except.ok (options, appPath), evs) =>
    if options.packager.platform = "linux" ∧ truthyOpt options.packager.name = true ∧
        options.packager.targetUrl ≠ "" then
      (Except.ok appPath,
        evs ++
          createLinuxDesktopLauncher env.core.readdir env.linux appPath
            (options.packager.name.getD "") options.packager.targetUrl ++
          installLinuxApp env.linux appPath (options.packager.name.getD ""))
    else (Except.ok appPath, evs)

end Nativefier

namespace Nativefier

/-! ## Helper lemmas -/

/-- The trim filter is the identity and emits no events: the top-level
entries of the resolved configuration never match the unprocessable key
names. -/
lemma trimUnprocessableOptions_eq (env : CoreEnv) (options : AppOptions) :
    trimUnprocessableOptions env options = (options, []) := by
  unfold trimUnprocessableOptions
  split
  · rfl
  · rfl

/-- A request without an upgrade field is left unchanged by upgrade
normalization. -/
lemma isUpgradeFn_of_none (r : RawOptions) (h : r.upgrade = none) :
    isUpgradeFn r = (r, false) := by
  unfold isUpgradeFn
  rw [h]

/-- Without an upgrade field, upgrade detection passes the request
through with its output directory as the final destination. -/
lemma upgradeStep_of_none (env : CoreEnv) (r1 : RawOptions) (h : r1.upgrade = none) :
    upgradeStep env r1 = Except.ok (r1, r1.out.getD "") := by
  unfold upgradeStep
  rw [isUpgradeFn_of_none r1 h]
  rfl

/-- Output-defaulting does not touch the upgrade field. -/
lemma defaultOut_upgrade (env : CoreEnv) (r : RawOptions) :
    (defaultOut env r).upgrade = r.upgrade := by
  unfold defaultOut
  split
  · rfl
  · rfl

/-- Output-defaulting does not touch the platform field. -/
lemma defaultOut_platform (env : CoreEnv) (r : RawOptions) :
    (defaultOut env r).platform = r.platform := by
  unfold defaultOut
  split
  · rfl
  · rfl

/-- Path normalization either fails with the undetermined-path error or
returns a path. -/
lemma normalizeAppPath_cases (a : StrOrArr) :
    normalizeAppPath a = Except.error appPathUndeterminedMsg ∨
    ∃ p evs, normalizeAppPath a = Except.ok (p, evs) := by
  rcases a with s | l
  · right
    exact ⟨s, [], rfl⟩
  · rcases l with _ | ⟨x, rest⟩
    · left
      rfl
    · right
      exact ⟨x, _, rfl⟩

/-- When the host process holds administrator rights, the package stage
either fails with the undetermined-path error or succeeds. -/
lemma packageStage_fst_of_admin (env : CoreEnv) (r4 : RawOptions) (fo : String)
    (hadm : env.isWindowsAdmin = true) :
    (packageStage env r4 fo).1 = Except.error appPathUndeterminedMsg ∨
    ∃ o p, (packageStage env r4 fo).1 = Except.ok (o, p) := by
  unfold packageStage
  rw [if_neg (by simp [hadm])]
  unfold packageStageRest
  rcases normalizeAppPath_cases env.packagerResult with h | ⟨p0, evsN, h⟩
  · left
    rw [h]
  · right
    exact ⟨_, _, by rw [h]⟩

/-- The result component of the full build is the result component of
the pre-path pipeline, with the resolved configuration projected
away. -/
lemma build_fst_eq (env : Env) (r : RawOptions) :
    (buildNativefierApp env r).1 = (buildPrePath env.core r).1.map Prod.snd := by
  unfold buildNativefierApp
  rcases h : buildPrePath env.core r with ⟨res, evs⟩
  rcases res with e | ⟨o, p⟩
  · rfl
  · dsimp only
    split
    · rfl
    · rfl

/-! ## Claim theorems -/

/-- C2 (code evaluation): `trimUnprocessableOptions` never changes the
configuration and never warns — for every host and configuration,
including a Windows-target build from a non-Windows host without Wine
with the icon (and every other listed field) set. The top-level entries
of the resolved configuration are only the packager and nativefier
slices, so the filter over the unprocessable key names always comes up
empty and the function returns before clearing anything or warning. -/
theorem claimC2_trim_is_noop (env : CoreEnv) (options : AppOptions) :
    trimUnprocessableOptions env options = (options, []) :=
  trimUnprocessableOptions_eq env options

/-- C4: path-result normalization over the packaging engine's returned
list — an empty list yields the directory-exists build failure, a
single-element list yields that element with no warning, and a longer
list yields its first element together with the logged anomaly
warning. -/
theorem claimC4_normalize_app_path (x y z : String) (t : List String) :
    normalizeAppPath (StrOrArr.arr []) = Except.error appPathUndeterminedMsg ∧
    normalizeAppPath (StrOrArr.arr [x]) = Except.ok (x, []) ∧
    normalizeAppPath (StrOrArr.arr (y :: z :: t)) =
      Except.ok (y, [Event.warn multiPathWarnMsg]) := by
  refine ⟨rfl, rfl, rfl⟩

/-- C5: upgrade normalization — a non-empty upgrade string is moved to
`upgradeFrom`, the upgrade field becomes the boolean true and the
request is reported as an upgrade; an empty or absent upgrade field
leaves the request unchanged and is reported as not an upgrade. -/
theorem claimC5_is_upgrade (r : RawOptions) (s : String) :
    (r.upgrade = some (UpgradeField.str s) → s ≠ "" →
      isUpgradeFn r =
        ({ r with upgradeFrom := some s, upgrade := some (UpgradeField.flag true) }, true)) ∧
    (r.upgrade = none ∨ r.upgrade = some (UpgradeField.str "") →
      isUpgradeFn r = (r, false)) := by
  constructor
  · intro h hs
    unfold isUpgradeFn
    rw [h]
    simp [hs]
  · intro h
    unfold isUpgradeFn
    rcases h with h | h <;> simp [h]

/-- C5 witness: a request with upgrade path "/some/path" is normalized
into an upgrade, a request without an upgrade field is untouched. -/
theorem claimC5_is_upgrade_witness :
    isUpgradeFn
        { targetUrl := "https://example.com", out := none, overwrite := false,
          upgrade := some (UpgradeField.str "/some/path"), upgradeFrom := none,
          quiet := false, verbose := false, name := none, icon := none,
          appCopyright := none, appVersion := none, buildVersion := none,
          versionString := none, win32metadata := false, platform := "linux",
          tray := "false" } =
      ({ targetUrl := "https://example.com", out := none, overwrite := false,
         upgrade := some (UpgradeField.flag true), upgradeFrom := some "/some/path",
         quiet := false, verbose := false, name := none, icon := none,
         appCopyright := none, appVersion := none, buildVersion := none,
         versionString := none, win32metadata := false, platform := "linux",
         tray := "false" }, true) ∧
    isUpgradeFn
        { targetUrl := "https://example.com", out := none, overwrite := false,
          upgrade := none, upgradeFrom := none,
          quiet := false, verbose := false, name := none, icon := none,
          appCopyright := none, appVersion := none, buildVersion := none,
          versionString := none, win32metadata := false, platform := "linux",
          tray := "false" } =
      ({ targetUrl := "https://example.com", out := none, overwrite := false,
         upgrade := none, upgradeFrom := none,
         quiet := false, verbose := false, name := none, icon := none,
         appCopyright := none, appVersion := none, buildVersion := none,
         versionString := none, win32metadata := false, platform := "linux",
         tray := "false" }, false) := by
  constructor
  · exact (claimC5_is_upgrade _ "/some/path").1 rfl (by decide)
  · exact (claimC5_is_upgrade _ "").2 (Or.inl rfl)

end Nativefier

namespace Nativefier

/-- C6: icon copying — a no-op without a configured icon; for the
darwin/mas bundle family with tray mode not disabled, the tray icon from
the configured icon's directory is copied to `<stagedPath>/icon.png`,
and nothing is copied when tray mode is disabled; for Windows/Linux
targets the configured icon file is copied to `<stagedPath>/icon.<ext>`
with its original extension. -/
theorem claimC6_copy_icons (options : AppOptions) (appPath iconPath : String) :
    (options.packager.icon = none → copyIconsIfNecessary options appPath = []) ∧
    (options.packager.icon = some iconPath → iconPath ≠ "" →
      (options.packager.platform = "darwin" ∨ options.packager.platform = "mas") →
      (options.nativefier.tray ≠ "false" →
        copyIconsIfNecessary options appPath =
          [Event.copy (dirname iconPath ++ "/" ++ "tray-icon.png")
            (pathJoin appPath "icon.png") true false]) ∧
      (options.nativefier.tray = "false" → copyIconsIfNecessary options appPath = [])) ∧
    (options.packager.icon = some iconPath → iconPath ≠ "" →
      (options.packager.platform = "win32" ∨ options.packager.platform = "linux") →
      copyIconsIfNecessary options appPath =
        [Event.copy iconPath (pathJoin appPath ("icon" ++ extname iconPath)) true false]) := by
  refine ⟨?_, ?_, ?_⟩
  · intro h
    unfold copyIconsIfNecessary
    rw [h]
    rfl
  · intro h hne hplat
    constructor
    · intro htray
      unfold copyIconsIfNecessary
      rw [h]
      simp [truthyOpt, hne, hplat, htray]
    · intro htray
      unfold copyIconsIfNecessary
      rw [h]
      simp [truthyOpt, hne, hplat, htray]
  · intro h hne hplat
    unfold copyIconsIfNecessary
    rw [h]
    have hd : ¬ (options.packager.platform = "darwin" ∨ options.packager.platform = "mas") := by
      rcases hplat with hp | hp <;> (rw [hp]; decide)
    simp [truthyOpt, hne, hd]

/-- A concrete resolved configuration used by the icon-copy witness. -/
def mkIconOptions (platform : String) (icon : Option String) (tray : String) : AppOptions :=
  { packager :=
      { platform := platform, icon := icon, name := some "MyApp",
        targetUrl := "https://example.com", out := "/tmp/out", overwrite := false,
        upgrade := false, upgradeFrom := none, appCopyright := none, appVersion := none,
        buildVersion := none, versionString := none, win32metadata := false,
        dir := "/tmp/app", quiet := true },
    nativefier := { tray := tray } }

/-- C6 witness: on a darwin target with tray enabled the tray icon is
copied; with tray disabled nothing is; on a linux target the icon keeps
its extension; without an icon nothing happens. -/
theorem claimC6_copy_icons_witness :
    copyIconsIfNecessary (mkIconOptions "darwin" (some "/x/icon.icns") "true") "/tmp/app" =
      [Event.copy "/x/tray-icon.png" "/tmp/app/icon.png" true false] ∧
    copyIconsIfNecessary (mkIconOptions "darwin" (some "/x/icon.icns") "false") "/tmp/app" =
      [] ∧
    copyIconsIfNecessary (mkIconOptions "linux" (some "/x/icon.png") "false") "/tmp/app" =
      [Event.copy "/x/icon.png" "/tmp/app/icon.png" true false] ∧
    copyIconsIfNecessary (mkIconOptions "linux" none "true") "/tmp/app" = [] := by
  refine ⟨?_, ?_, ?_, ?_⟩
  · have h := (claimC6_copy_icons (mkIconOptions "darwin" (some "/x/icon.icns") "true")
      "/tmp/app" "/x/icon.icns").2.1 rfl (by decide) (Or.inl rfl)
    have h2 := h.1 (by decide)
    rw [h2]
    decide
  · exact ((claimC6_copy_icons (mkIconOptions "darwin" (some "/x/icon.icns") "false")
      "/tmp/app" "/x/icon.icns").2.1 rfl (by decide) (Or.inl rfl)).2 rfl
  · have h := (claimC6_copy_icons (mkIconOptions "linux" (some "/x/icon.png") "false")
      "/tmp/app" "/x/icon.png").2.2 rfl (by decide) (Or.inr rfl)
    rw [h]
    decide
  · exact (claimC6_copy_icons (mkIconOptions "linux" none "true") "/tmp/app" "/x/icon.png").1 rfl

/-- C8: the overwrite-upgrade finalization. On a darwin target, when the
pre-delete of the destination bundle's nested Frameworks directory
fails, only a warning is recorded and finalization continues: the fresh
`.app` bundle is still copied over the destination honouring the
overwrite flag with timestamps preserved, the temporary build output is
deleted, and the destination becomes the result. On any non-darwin
target no frameworks pre-delete (nor its failure warning) appears in the
trace at all, whatever the failure switch. -/
theorem claimC8_upgrade_finalize (b : Bool) (pk : PackagerOptions)
    (finalOutDirectory appPath : String)
    (h1 : pk.upgrade = true) (h2 : truthyOpt pk.upgradeFrom = true)
    (h3 : pk.overwrite = true) :
    (pk.platform = "darwin" →
      upgradeFinalize true pk finalOutDirectory appPath =
        (finalOutDirectory,
          [Event.warn preDeleteWarnMsg,
            Event.copy (pathJoin appPath (pk.name.getD "" ++ ".app"))
              (pathJoin finalOutDirectory (pk.name.getD "" ++ ".app")) true true,
            Event.remove appPath])) ∧
    (pk.platform ≠ "darwin" →
      upgradeFinalize b pk finalOutDirectory appPath =
        (finalOutDirectory,
          [Event.copy appPath finalOutDirectory true true, Event.remove appPath])) := by
  constructor
  · intro hp
    unfold upgradeFinalize
    simp [h1, h2, h3, hp]
  · intro hp
    unfold upgradeFinalize
    simp [h1, h2, h3, hp]

/-- A concrete packager configuration for an overwrite-upgrade, used by
the finalization witness. -/
def mkUpgradePk (platform : String) : PackagerOptions :=
  { platform := platform, icon := none, name := some "MyApp",
    targetUrl := "https://example.com", out := "/tmp/work", overwrite := true,
    upgrade := true, upgradeFrom := some "/opt/OldApp", appCopyright := none,
    appVersion := none, buildVersion := none, versionString := none,
    win32metadata := false, dir := "/tmp/app", quiet := true }

/-- C8 witness: finalizing a darwin overwrite-upgrade whose frameworks
pre-delete fails still copies the bundle and removes the temporary
output; a linux overwrite-upgrade performs no frameworks pre-delete. -/
theorem claimC8_upgrade_finalize_witness :
    upgradeFinalize true (mkUpgradePk "darwin") "/opt/OldApp" "/tmp/work/MyApp-darwin-x64" =
      ("/opt/OldApp",
        [Event.warn preDeleteWarnMsg,
          Event.copy "/tmp/work/MyApp-darwin-x64/MyApp.app" "/opt/OldApp/MyApp.app" true true,
          Event.remove "/tmp/work/MyApp-darwin-x64"]) ∧
    upgradeFinalize false (mkUpgradePk "linux") "/opt/OldApp" "/tmp/work/MyApp-linux-x64" =
      ("/opt/OldApp",
        [Event.copy "/tmp/work/MyApp-linux-x64" "/opt/OldApp" true true,
          Event.remove "/tmp/work/MyApp-linux-x64"]) := by
  constructor
  · have h := (claimC8_upgrade_finalize true (mkUpgradePk "darwin") "/opt/OldApp"
      "/tmp/work/MyApp-darwin-x64" rfl rfl rfl).1 rfl
    rw [h]
    decide
  · exact (claimC8_upgrade_finalize false (mkUpgradePk "linux") "/opt/OldApp"
      "/tmp/work/MyApp-linux-x64" rfl rfl rfl).2 (by decide)

end Nativefier

namespace Nativefier

/-! ## C7: Linux desktop-entry generation -/

/-- Concrete build directory for the desktop-entry scenario. -/
def apC7 : String := "/tmp/out/MyApp-linux-x64"

/-- Directory listing collaborator for the desktop-entry scenario. -/
def rdC7 : String → List String := fun d => if d = apC7 then ["MyApp"] else []

/-- A Linux environment in which every finalization operation
succeeds. -/
def lxOk : LinuxEnv :=
  { homeDir := "/home/user", isRoot := false, launcherWriteOk := true,
    sudoRmOk := true, sudoCpOk := true, installFsOk := true, installWriteOk := true }

/-- The descriptor produced for app name MyApp and target URL
https://example.com. -/
def contentC7 : String := desktopFileContent apC7 "MyApp" "MyApp" "https://example.com"

/-- The desktop-entry claim for app name MyApp and target URL
https://example.com, parameterized by the location `p` the descriptor is
claimed to be written to: the descriptor contains the claimed Name,
Comment, Exec (ending in the placeholder), Icon and StartupWMClass
lines, and launcher generation writes it at `p` and marks it
executable. -/
def desktopLauncherClaim (p : String) : Prop :=
  occursIn "Name=MyApp" contentC7 = true ∧
  occursIn "Comment=App for https://example.com" contentC7 = true ∧
  ((splitOnChar '\n' contentC7.data).any
    (fun l => leadsWith "Exec=".data l && leadsWith ['U', '%'] l.reverse)) = true ∧
  occursIn ("Icon=" ++ pathJoin (pathJoin (pathJoin apC7 "resources") "app") "icon.png")
    contentC7 = true ∧
  occursIn "StartupWMClass=MyApp" contentC7 = true ∧
  createLinuxDesktopLauncher rdC7 lxOk apC7 "MyApp" "https://example.com" =
    [Event.writeFile p contentC7, Event.chmod p 0o755,
      Event.info ("Created desktop launcher at " ++ p)]

set_option maxRecDepth 100000 in
/-- C7 counterexample: the claim as stated — with the descriptor placed
*beside* the build directory, that is in its parent directory — is
false: the source joins the file name onto the build directory itself,
so nothing is written at the beside-location. -/
theorem claimC7_counterexample :
    ¬ desktopLauncherClaim (pathJoin (dirname apC7) "MyApp.desktop") := by
  intro h
  exact absurd h.2.2.2.2.2 (by decide)

set_option maxRecDepth 100000 in
/-- C7 (amended): desktop-entry generation for app name MyApp and target
URL https://example.com produces a descriptor with the claimed Name,
Comment, Exec, Icon and StartupWMClass lines, marked executable, placed
*inside* the build directory; and whitespace is stripped from the app
name in the StartupWMClass line. -/
theorem claimC7_desktop_entry :
    desktopLauncherClaim (pathJoin apC7 "MyApp.desktop") ∧
    occursIn "StartupWMClass=MyApp"
      (desktopFileContent apC7 "My App" "My App" "https://example.com") = true := by
  constructor
  · exact ⟨by decide, by decide, by decide, by decide, by decide, by decide⟩
  · decide

end Nativefier

namespace Nativefier

/-! ## C3: the darwin-target privilege guard -/

/-- Environment of the C3 counterexample: a Linux host without admin
rights building a darwin-target app. -/
def envC3 : Env :=
  { core :=
      { cwd := "/home/user", host := Host.linux, isWindowsAdmin := false, hasWine := false,
        findUpgradeApp := fun _ => none,
        tmpAppDir := "/tmp/app", tmpUpgradeDir := "/tmp/appUpgrade",
        packagerResult := StrOrArr.arr ["/tmp/out/App-darwin-x64"],
        readdir := fun _ => [], removeFrameworksFails := false },
    linux := lxOk }

/-- Request of the C3 counterexample: a fresh darwin-target build. -/
def rawC3 : RawOptions :=
  { targetUrl := "https://example.com", out := some "/tmp/out", overwrite := false,
    upgrade := none, upgradeFrom := none, quiet := false, verbose := false,
    name := some "App", icon := none, appCopyright := none, appVersion := none,
    buildVersion := none, versionString := none, win32metadata := false,
    platform := "darwin", tray := "false" }

/-- C3 counterexample: a darwin-target build on a Linux host — a host
that is not macOS — without administrator rights does not fail: it
completes and returns the packaged path. The source's guard tests for a
Windows host specifically, not for any non-macOS host. -/
theorem claimC3_counterexample :
    envC3.core.host ≠ Host.macos ∧ envC3.core.isWindowsAdmin = false ∧
    rawC3.platform = "darwin" ∧
    (buildNativefierApp envC3 rawC3).1 = Except.ok "/tmp/out/App-darwin-x64" := by
  exact ⟨by decide, rfl, rfl, rfl⟩

/-- C3 (amended): for every build whose resolved target platform is
darwin and whose host OS is Windows, the build fails with the
insufficient-privileges error before staging (no effect is performed)
unless the host process holds administrator rights, in which case that
error never arises. -/
theorem claimC3_darwin_guard (env : Env) (r : RawOptions)
    (h0 : r.upgrade = none) (h1 : r.platform = "darwin")
    (h2 : env.core.host = Host.windows) :
    (env.core.isWindowsAdmin = false →
      buildNativefierApp env r = (Except.error darwinPrivilegeMsg, [])) ∧
    (env.core.isWindowsAdmin = true →
      (buildNativefierApp env r).1 ≠ Except.error darwinPrivilegeMsg) := by
  have hd0 : (defaultOut env.core r).upgrade = none := by
    rw [defaultOut_upgrade]
    exact h0
  have hstep : upgradeStep env.core (defaultOut env.core r) =
      Except.ok (defaultOut env.core r, (defaultOut env.core r).out.getD "") :=
    upgradeStep_of_none env.core _ hd0
  have hplat : (getOptions (defaultOut env.core r)).packager.platform = "darwin" := by
    show (defaultOut env.core r).platform = "darwin"
    rw [defaultOut_platform]
    exact h1
  constructor
  · intro hadm
    have hpk : packageStage env.core (defaultOut env.core r)
        ((defaultOut env.core r).out.getD "") = (Except.error darwinPrivilegeMsg, []) := by
      unfold packageStage
      rw [if_pos ⟨hplat, by rw [h2]; rfl, by rw [hadm]; simp⟩]
    unfold buildNativefierApp buildPrePath
    rw [hstep]
    dsimp only
    rw [hpk]
  · intro hadm
    rw [build_fst_eq]
    unfold buildPrePath
    rw [hstep]
    dsimp only
    rcases packageStage_fst_of_admin env.core (defaultOut env.core r)
        ((defaultOut env.core r).out.getD "") hadm with h | ⟨o, p, h⟩
    · rw [h]
      intro hc
      simp only [Except.map, Except.error.injEq] at hc
      exact absurd hc (by decide)
    · rw [h]
      simp [Except.map]

/-- Environment of the C3 witness: a Windows host without admin
rights. -/
def envC3w : Env :=
  { core :=
      { cwd := "/home/user", host := Host.windows, isWindowsAdmin := false, hasWine := false,
        findUpgradeApp := fun _ => none,
        tmpAppDir := "/tmp/app", tmpUpgradeDir := "/tmp/appUpgrade",
        packagerResult := StrOrArr.arr ["/tmp/out/App-darwin-x64"],
        readdir := fun _ => [], removeFrameworksFails := false },
    linux := lxOk }

/-- C3 witness: a darwin-target build on a non-admin Windows host fails
with the insufficient-privileges error before any effect. -/
theorem claimC3_darwin_guard_witness :
    buildNativefierApp envC3w rawC3 = (Except.error darwinPrivilegeMsg, []) :=
  (claimC3_darwin_guard envC3w rawC3 rfl rfl rfl).1 rfl

end Nativefier

namespace Nativefier

/-! ## C9: Linux finalization is best-effort -/

/-- C9: neither Linux finalization step can abort the build. Whenever
the desktop-launcher body raises an error, the step catches it and only
logs a warning; whenever the install body raises an error, the step
catches it and logs a warning followed by the manual-recovery
instructions; and whenever the pre-path pipeline produced a final path,
the orchestrator returns exactly that path — whatever the Linux steps
did or failed to do. -/
theorem claimC9_linux_best_effort (rd : String → List String) (lx : LinuxEnv) (env : Env)
    (r : RawOptions) (ap an tu : String) {e1 e2 : String} {evL evI : List Event}
    {o : AppOptions} {p : String} {evs : List Event}
    (hL : createLinuxDesktopLauncherCore rd lx ap an tu = (evL, some e1))
    (hI : installLinuxAppCore lx ap an = (evI, some e2))
    (hP : buildPrePath env.core r = (Except.ok (o, p), evs)) :
    createLinuxDesktopLauncher rd lx ap an tu =
      evL ++ [Event.warn ("Failed to create desktop launcher: " ++ e1)] ∧
    installLinuxApp lx ap an =
      evI ++ [Event.warn ("Failed to install app to /opt: " ++ e2),
        Event.info manualRecoveryMsg] ∧
    (buildNativefierApp env r).1 = Except.ok p := by
  refine ⟨?_, ?_, ?_⟩
  · unfold createLinuxDesktopLauncher
    rw [hL]
  · unfold installLinuxApp
    rw [hI]
  · rw [build_fst_eq, hP]
    rfl

/-- A Linux environment in which the launcher write and the elevated
copy to /opt both fail. -/
def lxFail : LinuxEnv :=
  { homeDir := "/home/user", isRoot := false, launcherWriteOk := false,
    sudoRmOk := true, sudoCpOk := false, installFsOk := true, installWriteOk := true }

/-- Environment of the C9 witness: a linux-target build whose Linux
finalization operations fail. -/
def envW9 : Env :=
  { core :=
      { cwd := "/cwd", host := Host.linux, isWindowsAdmin := false, hasWine := false,
        findUpgradeApp := fun _ => none, tmpAppDir := "/tmp/app", tmpUpgradeDir := "/tmp/up",
        packagerResult := StrOrArr.arr ["/tmp/out/MyApp-linux-x64"],
        readdir := fun d => if d = "/tmp/out/MyApp-linux-x64" then ["MyApp"] else [],
        removeFrameworksFails := false },
    linux := lxFail }

/-- Request of the C9 witness. -/
def rawW9 : RawOptions :=
  { targetUrl := "https://example.com", out := some "/tmp/out", overwrite := false,
    upgrade := none, upgradeFrom := none, quiet := false, verbose := false,
    name := some "MyApp", icon := none, appCopyright := none, appVersion := none,
    buildVersion := none, versionString := none, win32metadata := false,
    platform := "linux", tray := "false" }

/-- C9 witness: with both Linux finalization steps failing, each logs
and continues, and the build still returns the packaged path. -/
theorem claimC9_linux_best_effort_witness :
    createLinuxDesktopLauncher envW9.core.readdir lxFail "/tmp/out/MyApp-linux-x64" "MyApp"
        "https://example.com" =
      [Event.warn ("Failed to create desktop launcher: " ++ launcherIoErrMsg)] ∧
    installLinuxApp lxFail "/tmp/out/MyApp-linux-x64" "MyApp" =
      [Event.spawn "sudo" ["rm", "-rf", "/opt/MyApp"],
        Event.warn ("Failed to install app to /opt: Failed to copy app to /opt/MyApp"),
        Event.info manualRecoveryMsg] ∧
    (buildNativefierApp envW9 rawW9).1 = Except.ok "/tmp/out/MyApp-linux-x64" := by
  have h := claimC9_linux_best_effort envW9.core.readdir lxFail envW9 rawW9
    "/tmp/out/MyApp-linux-x64" "MyApp" "https://example.com" rfl rfl rfl
  exact ⟨h.1, h.2.1, h.2.2⟩

/-! ## C10: when Linux finalization runs -/

/-- C10: the Linux finalization steps run exactly when the resolved
target platform is linux and both the resolved app name and the target
URL are truthy. When the platform is not linux, or either field is
missing, the build completes with the pre-path trace unchanged — no
desktop entry is generated and no install is attempted; when all three
conditions hold, the two steps' effects are appended. -/
theorem claimC10_linux_condition (env : Env) (r : RawOptions) {o : AppOptions} {p : String}
    {evs : List Event}
    (h : buildPrePath env.core r = (Except.ok (o, p), evs)) :
    (o.packager.platform ≠ "linux" → buildNativefierApp env r = (Except.ok p, evs)) ∧
    (¬ (truthyOpt o.packager.name = true ∧ o.packager.targetUrl ≠ "") →
      buildNativefierApp env r = (Except.ok p, evs)) ∧
    (o.packager.platform = "linux" → truthyOpt o.packager.name = true →
      o.packager.targetUrl ≠ "" →
      buildNativefierApp env r =
        (Except.ok p,
          evs ++
            createLinuxDesktopLauncher env.core.readdir env.linux p
              (o.packager.name.getD "") o.packager.targetUrl ++
            installLinuxApp env.linux p (o.packager.name.getD ""))) := by
  refine ⟨?_, ?_, ?_⟩
  · intro hne
    unfold buildNativefierApp
    rw [h]
    dsimp only
    split
    · rename_i hc
      exact absurd hc.1 hne
    · rfl
  · intro hne
    unfold buildNativefierApp
    rw [h]
    dsimp only
    split
    · rename_i hc
      exact absurd ⟨hc.2.1, hc.2.2⟩ hne
    · rfl
  · intro hp hn ht
    unfold buildNativefierApp
    rw [h]
    dsimp only
    split
    · rfl
    · rename_i hc
      exact absurd ⟨hp, hn, ht⟩ hc

/-- Environment of the C10 witness. -/
def envW10 : Env :=
  { core :=
      { cwd := "/cwd", host := Host.linux, isWindowsAdmin := false, hasWine := false,
        findUpgradeApp := fun _ => none, tmpAppDir := "/tmp/app", tmpUpgradeDir := "/tmp/up",
        packagerResult := StrOrArr.arr ["/tmp/out/MyApp-linux-x64"],
        readdir := fun d => if d = "/tmp/out/MyApp-linux-x64" then ["MyApp"] else [],
        removeFrameworksFails := false },
    linux := lxOk }

/-- Request of the C10 witness: a linux-target build without a resolved
app name. -/
def rawW10 : RawOptions :=
  { targetUrl := "https://example.com", out := some "/tmp/out", overwrite := false,
    upgrade := none, upgradeFrom := none, quiet := false, verbose := false,
    name := none, icon := none, appCopyright := none, appVersion := none,
    buildVersion := none, versionString := none, win32metadata := false,
    platform := "linux", tray := "false" }

/-- C10 witness: a linux-target build with no resolved app name
completes with no desktop-entry or install effect in its trace. -/
theorem claimC10_linux_condition_witness :
    buildNativefierApp envW10 rawW10 =
      (Except.ok "/tmp/out/MyApp-linux-x64", [Event.stage "/tmp/app"]) := by
  exact (claimC10_linux_condition envW10 rawW10 rfl).2.1 (by decide)

/-! ## C1: the upgrade-in-place final destination -/

/-- Environment of the C1 scenario: a prior install at /opt/OldApp
discoverable by the upgrade detector. -/
def envC1 : Env :=
  { core :=
      { cwd := "/home/user", host := Host.linux, isWindowsAdmin := false, hasWine := false,
        findUpgradeApp := fun q =>
          if q = "/opt/OldApp" then
            some { appRoot := "/opt/OldApp", savedTargetUrl := "https://old.example.com",
                   savedName := some "OldApp", savedIcon := none, savedPlatform := "linux" }
          else none,
        tmpAppDir := "/tmp/app", tmpUpgradeDir := "/tmp/appUpgrade",
        packagerResult := StrOrArr.arr ["/home/user/output-apps/OldApp-linux-x64"],
        readdir := fun d => if d = "/home/user/output-apps" then ["OldApp"] else [],
        removeFrameworksFails := false },
    linux := lxOk }

/-- Request of the C1 scenario: an upgrade build from /opt/OldApp with
overwrite requested and no explicit output directory. -/
def rawC1 : RawOptions :=
  { targetUrl := "", out := none, overwrite := true,
    upgrade := some (UpgradeField.str "/opt/OldApp"), upgradeFrom := none,
    quiet := false, verbose := false, name := none, icon := none,
    appCopyright := none, appVersion := none, buildVersion := none, versionString := none,
    win32metadata := false, platform := "linux", tray := "false" }

/-- C1 (code evaluation): an upgrade build from the prior install at
/opt/OldApp with overwrite requested and no explicit output directory
returns the *defaulted* output directory `<cwd>/output-apps`, not the
prior install's root path. The early output-directory defaulting runs
before upgrade detection, so the redirect condition — output directory
still undefined — can never hold, and the finalization relocates the
build onto `<cwd>/output-apps` instead of /opt/OldApp. -/
theorem claimC1_final_path_not_prior_root :
    rawC1.out = none ∧ rawC1.overwrite = true ∧
    rawC1.upgrade = some (UpgradeField.str "/opt/OldApp") ∧
    (envC1.core.findUpgradeApp "/opt/OldApp").map PriorInstall.appRoot =
      some "/opt/OldApp" ∧
    (buildNativefierApp envC1 rawC1).1 = Except.ok "/home/user/output-apps" ∧
    ("/home/user/output-apps" : String) ≠ "/opt/OldApp" := by
  exact ⟨rfl, rfl, rfl, rfl, rfl, by decide⟩

end Nativefier
